/-
Verification of the per-destination health / TKO / probe-scheduler core of
mcrouter (`src/mcrouter/ProxyDestination.cpp`), as a shallow embedding in
Lean 4.

Modelling conventions:
  * Machine integers that stay small and non-negative (`int delay_ms`,
    `uint64_t`, counters) are modelled as `Nat`.
  * Quantities the C++ code computes in `double` (jitter, timer delays,
    the moving-average latency) are modelled as `ℚ`.  The random draw
    `rand() / RAND_MAX` is threaded through as an explicit parameter
    `r : ℚ` with `0 ≤ r ≤ 1`.
  * Asynchronous side effects (TKO log emission) are returned as an
    explicit list of emitted `TkoLog` records, in emission order.
  * `FBI_ASSERT` preconditions become hypotheses of the theorems.
-/
import Mathlib

set_option autoImplicit false

namespace Mcrouter

/-! ## Reply model

`McReply` lives in `lib/network` (outside `src/`); only the classification
used by `ProxyDestination.cpp` is needed. -/

/-- Reply result codes, the subset relevant to TKO classification. -/
inductive McRes where
  | mc_res_ok
  | mc_res_notfound
  | mc_res_connect_error
  | mc_res_timeout
  | mc_res_remote_error
  deriving DecidableEq

/-- A reply, reduced to its result code (the only part `ProxyDestination.cpp`
inspects). -/
structure McReply where
  result : McRes
  deriving DecidableEq

/-- Modelled from the spec: §7 classifies replies into hard TKO errors
(e.g. connect-error), soft TKO errors (e.g. timeout), other logical errors
(e.g. "not found", no TKO effect) and successes.  `McReply::isError` itself
is implemented outside `src/`.  "Not found" is a non-TKO logical error. -/
def McReply.isError (reply : McReply) : Bool :=
  match reply.result with
  | .mc_res_ok => false
  | _ => true

/-- Modelled from the spec: §7, hard TKO errors are e.g. connect-error. -/
def McReply.isHardTkoError (reply : McReply) : Bool :=
  match reply.result with
  | .mc_res_connect_error => true
  | _ => false

/-- Modelled from the spec: §7, soft TKO errors are e.g. timeout. -/
def McReply.isSoftTkoError (reply : McReply) : Bool :=
  match reply.result with
  | .mc_res_timeout => true
  | _ => false

/-! ## Shared failure counter (TkoTracker)

The `TkoTracker` implementation is not under `src/`; it is modelled from
spec §4.1, viewed from a single destination (`responsibleMe` says whether
*this* destination is the elected responsible one). -/

/-- Endpoint classification of the shared failure counter (spec §3). -/
inductive TkoClassification where
  | Healthy
  | SoftTko
  | HardTko
  deriving DecidableEq

/-- Modelled from the spec: §4.1 FailureCounter fields, single-destination
view.  `softConsecutive` is this destination's private consecutive
soft-failure tally. -/
structure TkoCounter where
  classification : TkoClassification
  responsibleMe : Bool
  hardCount : Nat
  softConsecutive : Nat
  hardThreshold : Nat
  softThreshold : Nat
  deriving DecidableEq

/-- Modelled from the spec: §4.1 `recordHardFailure(d) → bool responsible`:
increments the hard count; from Healthy, crossing the hard threshold trips
HardTko and elects the caller; from SoftTko, upgrades to HardTko and
re-elects; from HardTko, returns false. -/
def TkoCounter.recordHardFailure (c : TkoCounter) : TkoCounter × Bool :=
  let c1 := { c with hardCount := c.hardCount + 1 }
  match c.classification with
  | .Healthy =>
      if c.hardThreshold ≤ c1.hardCount then
        ({ c1 with classification := .HardTko, responsibleMe := true }, true)
      else
        (c1, false)
  | .SoftTko =>
      ({ c1 with classification := .HardTko, responsibleMe := true }, true)
  | .HardTko => (c1, false)

/-- Modelled from the spec: §4.1 `recordSoftFailure(d) → bool responsible`:
analogous, against the soft threshold, but only from Healthy. -/
def TkoCounter.recordSoftFailure (c : TkoCounter) : TkoCounter × Bool :=
  let c1 := { c with softConsecutive := c.softConsecutive + 1 }
  match c.classification with
  | .Healthy =>
      if c.softThreshold ≤ c1.softConsecutive then
        ({ c1 with classification := .SoftTko, responsibleMe := true }, true)
      else
        (c1, false)
  | _ => (c1, false)

/-- Modelled from the spec: §4.1 `recordSuccess(d)`: if `d` is responsible,
clear to Healthy and reset counters; otherwise reset only `d`'s private
consecutive-failure tally. -/
def TkoCounter.recordSuccess (c : TkoCounter) : TkoCounter :=
  if c.responsibleMe then
    { c with classification := .Healthy, responsibleMe := false,
             hardCount := 0, softConsecutive := 0 }
  else
    { c with softConsecutive := 0 }

/-- `isTko()`: classification is not Healthy. -/
def TkoCounter.isTko (c : TkoCounter) : Bool :=
  match c.classification with
  | .Healthy => false
  | _ => true

/-! ## Destination state -/

/-- Local destination states (`ProxyDestinationState`, the four local ones
counted by the `num_servers_*` gauges). -/
inductive ProxyDestinationState where
  | kNew
  | kUp
  | kClosed
  | kDown
  deriving DecidableEq

/-- TKO log events (`TkoLogEvent`). -/
inductive TkoLogEvent where
  | MarkHardTko
  | MarkSoftTko
  | UnMarkTko
  | RemoveFromConfig
  deriving DecidableEq

/-- The fields of a `TkoLog` record that the claims mention
(`ProxyDestination::onTkoEvent` fills them from the current state). -/
structure TkoLog where
  event : TkoLogEvent
  result : McRes
  avgLatency : ℚ
  probesSent : Nat
  deriving DecidableEq

/-- The mutable state of one `ProxyDestination` (plus the relevant
configuration options from `proxy->opts`).  `probe_timer` holds the armed
one-shot timer's delay in microseconds (the exact rational value
`delay_ms * 1000 * (1 + jitter)` before the C++ truncation to `uint64_t`);
`none` means no timer armed.  `client_` says whether the lazily-created
client exists; `clientWriteTimeout` is the write timeout currently pushed
to it. -/
structure PDState where
  sending_probes : Bool
  probe_delay_next_ms : Nat
  probe_timer : Option ℚ
  probesSent : Nat
  resetting : Bool
  disable_tko_tracking : Bool
  probe_delay_initial_ms : Nat
  probe_delay_max_ms : Nat
  client_ : Bool
  clientWriteTimeout : Option Nat
  localState : ProxyDestinationState
  shortestTimeout : Nat
  results : McRes → Nat
  avgLatency : ℚ
  latency_window_size : ℚ
  tko : TkoCounter

/-- Jitter constant `kProbeJitterMin = 0.05`. -/
def kProbeJitterMin : ℚ := 5 / 100

/-- Jitter constant `kProbeJitterMax = 0.5`. -/
def kProbeJitterMax : ℚ := 50 / 100

/-- `kProbeJitterDelta = kProbeJitterMax - kProbeJitterMin`. -/
def kProbeJitterDelta : ℚ := kProbeJitterMax - kProbeJitterMin

/-- The update of `probe_delay_next_ms` performed by
`schedule_next_probe`: values below 2 are lifted to 2 (the source comment:
`int(1 * 1.5) == 1, so advance it to 2 first`); otherwise
`probe_delay_next_ms *= 1.5` — for a non-negative `int` the
double-multiply-then-truncate equals `n + n / 2` in `Nat` arithmetic —
then the result is clamped at `probe_delay_max_ms`. -/
def probeDelayStep (maxms n : Nat) : Nat :=
  let next := if n < 2 then 2 else n + n / 2
  if maxms < next then maxms else next

/-- `ProxyDestination::schedule_next_probe` (the timer-arming part; `r` is
the draw `rand() / RAND_MAX ∈ [0,1]`).  Reads the delay to use *before*
advancing `probe_delay_next_ms`, computes the jittered delay in µs, and
arms the one-shot timer. -/
def schedule_next_probe (r : ℚ) (s : PDState) : PDState :=
  let delay_ms := s.probe_delay_next_ms
  let tmo_jitter_pct := r * kProbeJitterDelta + kProbeJitterMin
  let delay_us : ℚ := (delay_ms : ℚ) * 1000 * (1 + tmo_jitter_pct)
  { s with
      probe_delay_next_ms := probeDelayStep s.probe_delay_max_ms s.probe_delay_next_ms,
      probe_timer := some delay_us }

/-- `ProxyDestination::start_sending_probes`: set the flag, reset the delay
to `probe_delay_initial_ms`, schedule the first probe. -/
def start_sending_probes (r : ℚ) (s : PDState) : PDState :=
  schedule_next_probe r
    { s with sending_probes := true,
             probe_delay_next_ms := s.probe_delay_initial_ms }

/-- `ProxyDestination::stop_sending_probes`: zero `probesSent_`, clear the
flag, cancel any pending timer. -/
def stop_sending_probes (s : PDState) : PDState :=
  { s with probesSent := 0, sending_probes := false, probe_timer := none }

/-- `ProxyDestination::onTkoEvent`: builds the log record from the current
state (in particular `avgLatency` and `probesSent` as they are *now*). -/
def onTkoEvent (s : PDState) (event : TkoLogEvent) (result : McRes) : TkoLog :=
  { event := event, result := result,
    avgLatency := s.avgLatency, probesSent := s.probesSent }

/-- `ProxyDestination::unmark_tko`: record the success with the shared
counter; if probing, emit `UnMarkTko` and stop the probe loop. -/
def unmark_tko (s : PDState) (reply : McReply) : PDState × List TkoLog :=
  let s1 := { s with tko := s.tko.recordSuccess }
  if s1.sending_probes then
    (stop_sending_probes s1, [onTkoEvent s1 .UnMarkTko reply.result])
  else
    (s1, [])

/-- `ProxyDestination::handle_tko`. Early-out when `resetting` or TKO
tracking is disabled; errors feed the shared counter and, when this
destination becomes responsible, emit the mark event and start probing;
a success unmarks only when `¬sending_probes` or the reply is a probe's. -/
def handle_tko (r : ℚ) (s : PDState) (reply : McReply) (is_probe_req : Bool) :
    PDState × List TkoLog :=
  if s.resetting || s.disable_tko_tracking then
    (s, [])
  else if reply.isError then
    if reply.isHardTkoError then
      let p := s.tko.recordHardFailure
      let s1 := { s with tko := p.1 }
      if p.2 then
        (start_sending_probes r s1, [onTkoEvent s1 .MarkHardTko reply.result])
      else
        (s1, [])
    else if reply.isSoftTkoError then
      let p := s.tko.recordSoftFailure
      let s1 := { s with tko := p.1 }
      if p.2 then
        (start_sending_probes r s1, [onTkoEvent s1 .MarkSoftTko reply.result])
      else
        (s1, [])
    else
      (s, [])
  else if !s.sending_probes || is_probe_req then
    unmark_tko s reply
  else
    (s, [])

/-- Modelled from the spec: the exponential moving average update of
`ExponentialSmoothData::insertSample` (the class lives outside `src/`);
spec §4.3: "exponential-moving-average latency using `1/latencyWindowSize`
as the smoothing factor". -/
def insertSample (smoothing old sample : ℚ) : ℚ :=
  old * (1 - smoothing) + sample * smoothing

/-- `ProxyDestination::onReply`: first `handle_tko(reply, false)`, then the
per-result counter bump and the latency sample (`latency = endTime -
startTime` with `endTime = nowUs()`, modelled by the parameter `now`).
The smoothing factor `1 / latency_window_size` is fixed by the
`ProxyDestinationStats` constructor. -/
def onReply (r now startTime : ℚ) (s : PDState) (reply : McReply) :
    PDState × List TkoLog :=
  let p := handle_tko r s reply false
  let s2 := { p.1 with
    results := fun res =>
      if res = reply.result then p.1.results res + 1 else p.1.results res }
  let latency := now - startTime
  let s3 := { s2 with
    avgLatency := insertSample (1 / s2.latency_window_size) s2.avgLatency latency }
  (s3, p.2)

/-- `ProxyDestination::setState` restricted to the local state field (the
process-wide gauge mutations it performs are modelled by `GaugeSys`
below): mutate only when the state actually changes. -/
def setState (new_st : ProxyDestinationState) (s : PDState) : PDState :=
  if s.localState = new_st then s else { s with localState := new_st }

/-- `ProxyDestination::on_up`: local state becomes `kUp`. -/
def on_up (s : PDState) : PDState :=
  setState .kUp s

/-- `ProxyDestination::on_down`: when `resetting`, reclassify as `kClosed`;
otherwise go `kDown` and feed a synthetic `connect_error` reply into
`handle_tko` with `is_probe_req = false`. -/
def on_down (r : ℚ) (s : PDState) : PDState × List TkoLog :=
  if s.resetting then
    (setState .kClosed s, [])
  else
    handle_tko r (setState .kDown s) ⟨.mc_res_connect_error⟩ false

/-- `ProxyDestination::resetInactive`: nothing to do without a client;
otherwise set `resetting`, close the client — per spec §4.3 the close
surfaces the `on_down` status callback, which the flag reclassifies as
`kClosed` — drop the client handle, and unset `resetting`. -/
def resetInactive (r : ℚ) (s : PDState) : PDState × List TkoLog :=
  if s.client_ then
    let s1 := { s with resetting := true }
    let p := on_down r s1
    ({ p.1 with client_ := false, clientWriteTimeout := none,
                resetting := false }, p.2)
  else
    (s, [])

/-- `ProxyDestination::~ProxyDestination`, local-state part: close the
client with its status callbacks already cleared (so no `on_down` fires);
if probing, emit exactly one `RemoveFromConfig` event with `mc_res_ok` and
stop the probe loop.  (Registry deregistration and the final gauge
decrement are modelled by `GaugeSys`.) -/
def destructorRun (s : PDState) : PDState × List TkoLog :=
  let s0 := { s with client_ := false, clientWriteTimeout := none }
  if s0.sending_probes then
    (stop_sending_probes s0, [onTkoEvent s0 .RemoveFromConfig .mc_res_ok])
  else
    (s0, [])

/-- `ProxyDestination::updateShortestTimeout`: `t = 0` is a no-op;
otherwise lower the stored shortest timeout when it is unset (0) or larger
than `t`, pushing the new value to the client if one exists. -/
def updateShortestTimeout (t : Nat) (s : PDState) : PDState :=
  if t = 0 then s
  else if s.shortestTimeout = 0 || t < s.shortestTimeout then
    let s1 := { s with shortestTimeout := t }
    if s1.client_ then { s1 with clientWriteTimeout := some t } else s1
  else s

/-! ## Process-wide local-state gauges

`setState`, the constructor and the destructor mutate the four
`num_servers_*` gauges in `proxy->stats`.  `GaugeSys` models the gauges
together with the multiset of local states of all live destinations of
the process. -/

/-- The four `num_servers_*` gauges, as signed counters (`stat_decr` /
`stat_incr` move them by 1). -/
structure GaugeVec where
  num_servers_new : Int
  num_servers_up : Int
  num_servers_closed : Int
  num_servers_down : Int
  deriving DecidableEq

/-- `getStatName`: the gauge belonging to a local state, as a projection. -/
def gaugeGet (g : GaugeVec) (st : ProxyDestinationState) : Int :=
  match st with
  | .kNew => g.num_servers_new
  | .kUp => g.num_servers_up
  | .kClosed => g.num_servers_closed
  | .kDown => g.num_servers_down

/-- `stat_incr(proxy->stats, getStatName(st), 1)`. -/
def statIncr (g : GaugeVec) (st : ProxyDestinationState) : GaugeVec :=
  match st with
  | .kNew => { g with num_servers_new := g.num_servers_new + 1 }
  | .kUp => { g with num_servers_up := g.num_servers_up + 1 }
  | .kClosed => { g with num_servers_closed := g.num_servers_closed + 1 }
  | .kDown => { g with num_servers_down := g.num_servers_down + 1 }

/-- `stat_decr(proxy->stats, getStatName(st), 1)`. -/
def statDecr (g : GaugeVec) (st : ProxyDestinationState) : GaugeVec :=
  match st with
  | .kNew => { g with num_servers_new := g.num_servers_new - 1 }
  | .kUp => { g with num_servers_up := g.num_servers_up - 1 }
  | .kClosed => { g with num_servers_closed := g.num_servers_closed - 1 }
  | .kDown => { g with num_servers_down := g.num_servers_down - 1 }

/-- Gauges together with the local states of the live destinations. -/
structure GaugeSys where
  dests : Multiset ProxyDestinationState
  gauges : GaugeVec

/-- Gauge-touching lifecycle events of a destination: construction,
a `setState` transition of a live destination in state `old` to `new`,
destruction of a live destination whose final local state is `st`. -/
inductive GaugeOp where
  | create
  | setSt (old new : ProxyDestinationState)
  | destroy (st : ProxyDestinationState)

/-- One lifecycle event.  `create` mirrors the `ProxyDestination`
constructor (`stat_incr(num_servers_new_stat)`; the fresh destination's
local state is `kNew` — modelled from the spec §3 "created in `New`", the
member initialiser being in the header, not under `src/`).  `setSt`
mirrors `setState` (on `old ≠ new`: decrement the old state's gauge,
increment the new one); it applies only when some live destination is in
state `old`.  `destroy` mirrors the destructor
(`stat_decr(getStatName(stats_.state))`) of a live destination in state
`st`. -/
def applyGaugeOp (s : GaugeSys) : GaugeOp → GaugeSys
  | .create =>
      { dests := ProxyDestinationState.kNew ::ₘ s.dests,
        gauges := statIncr s.gauges .kNew }
  | .setSt old new =>
      if old ∈ s.dests then
        if old = new then s
        else
          { dests := new ::ₘ s.dests.erase old,
            gauges := statIncr (statDecr s.gauges old) new }
      else s
  | .destroy st =>
      if st ∈ s.dests then
        { dests := s.dests.erase st, gauges := statDecr s.gauges st }
      else s

/-- The process starts with no destinations and zeroed gauges. -/
def gaugeSysInit : GaugeSys :=
  { dests := 0, gauges := ⟨0, 0, 0, 0⟩ }

/-- Run a sequence of lifecycle events from the initial system. -/
def runGaugeOps (ops : List GaugeOp) : GaugeSys :=
  ops.foldl applyGaugeOp gaugeSysInit

/-! ## Concrete states for instantiating the theorems -/

/-- A concrete healthy destination state: hard threshold 1, soft threshold
3, `probe_delay_initial_ms = 1`, `probe_delay_max_ms = 1000` (the spec's
scenario configuration), idle scheduler. -/
def sampleState : PDState :=
  { sending_probes := false, probe_delay_next_ms := 1, probe_timer := none,
    probesSent := 0, resetting := false, disable_tko_tracking := false,
    probe_delay_initial_ms := 1, probe_delay_max_ms := 1000,
    client_ := true, clientWriteTimeout := some 100, localState := .kUp,
    shortestTimeout := 100, results := fun _ => 0, avgLatency := 0,
    latency_window_size := 2,
    tko := { classification := .Healthy, responsibleMe := false,
             hardCount := 0, softConsecutive := 0,
             hardThreshold := 1, softThreshold := 3 } }

/-- `sampleState` mid probing episode: hard TKO held by this destination,
probes being sent, timer consumed by `on_timer`. -/
def sampleProbing : PDState :=
  { sampleState with
      sending_probes := true, probe_delay_next_ms := 2, probesSent := 1,
      probe_timer := none,
      tko := { sampleState.tko with
                 classification := .HardTko, responsibleMe := true,
                 hardCount := 1 } }

/-! ## Theorems -/

/-- C1: for every success reply (not an error), if `sending_probes` is true
and `is_probe_req = false`, `handle_tko` returns the state unchanged and
emits nothing: the TKO classification is untouched (`recordSuccess` is not
reached), no `UnMarkTko` event is emitted, and `sending_probes` stays true
so the probe loop keeps running. -/
theorem handle_tko_success_during_probing_is_noop (r : ℚ) (s : PDState)
    (reply : McReply) (hsucc : reply.isError = false)
    (hprobes : s.sending_probes = true) :
    handle_tko r s reply false = (s, []) := by
  unfold handle_tko
  split
  · rfl
  · rw [hsucc, hprobes]
    simp

/-- Witness for C1 at a concrete probing state and an `mc_res_ok` reply. -/
theorem handle_tko_success_during_probing_is_noop_witness :
    (McReply.mk .mc_res_ok).isError = false
      ∧ sampleProbing.sending_probes = true
      ∧ handle_tko 0 sampleProbing ⟨.mc_res_ok⟩ false = (sampleProbing, []) :=
  ⟨rfl, rfl,
   handle_tko_success_during_probing_is_noop 0 sampleProbing ⟨.mc_res_ok⟩ rfl rfl⟩

/-- C2 counterexample: with `probe_delay_initial_ms = 1`, a hard-TKO
election from `sampleState` (hard threshold 1, jitter draw `r = 0`) arms
the first probe timer with delay `1 × 1.05 ms = 1050 µs`, which does *not*
lie in the claimed interval `[2 × 1.05, 2 × 1.50] ms = [2100, 3000] µs`:
`schedule_next_probe` reads the delay to use *before* advancing
`probe_delay_next_ms`, so the first timer uses the initial 1 ms, not 2 ms. -/
theorem first_probe_delay_not_double :
    (handle_tko 0 sampleState ⟨.mc_res_connect_error⟩ false).1.probe_timer
        = some 1050
      ∧ ¬((2100 : ℚ) ≤ 1050 ∧ (1050 : ℚ) ≤ 3000) := by
  constructor
  · norm_num [handle_tko, sampleState, TkoCounter.recordHardFailure,
      start_sending_probes, schedule_next_probe, kProbeJitterDelta,
      kProbeJitterMax, kProbeJitterMin, McReply.isError, McReply.isHardTkoError]
  · norm_num

/-- C2 amended: with `probe_delay_initial_ms = 1`, the delay of the first
probe timer armed after a hard-TKO election (a hard-TKO error reply on
which `recordHardFailure` elects this destination) lies in
`[1 × 1.05, 1 × 1.50] ms`, i.e. `[1050, 1500] µs`. -/
theorem first_probe_delay_initial_bounds (r : ℚ) (s : PDState)
    (reply : McReply) (hr0 : 0 ≤ r) (hr1 : r ≤ 1)
    (hres : s.resetting = false) (hdis : s.disable_tko_tracking = false)
    (herr : reply.isError = true) (hhard : reply.isHardTkoError = true)
    (helect : s.tko.recordHardFailure.2 = true)
    (hinit : s.probe_delay_initial_ms = 1) :
    ∃ d : ℚ, (handle_tko r s reply false).1.probe_timer = some d
      ∧ 1050 ≤ d ∧ d ≤ 1500 := by
  unfold handle_tko
  rw [hres, hdis, herr, hhard]
  simp only [Bool.false_or, if_true, helect]
  refine ⟨(1 : ℚ) * 1000 * (1 + (r * kProbeJitterDelta + kProbeJitterMin)), ?_, ?_, ?_⟩
  · simp [start_sending_probes, schedule_next_probe, hinit]
  · unfold kProbeJitterDelta kProbeJitterMax kProbeJitterMin
    nlinarith
  · unfold kProbeJitterDelta kProbeJitterMax kProbeJitterMin
    nlinarith

/-- Witness for the amended C2 at `r = 0` and `sampleState` with a
`connect_error` reply. -/
theorem first_probe_delay_initial_bounds_witness :
    (0 : ℚ) ≤ 0 ∧ (0 : ℚ) ≤ 1
      ∧ sampleState.resetting = false
      ∧ sampleState.disable_tko_tracking = false
      ∧ (McReply.mk .mc_res_connect_error).isError = true
      ∧ (McReply.mk .mc_res_connect_error).isHardTkoError = true
      ∧ sampleState.tko.recordHardFailure.2 = true
      ∧ sampleState.probe_delay_initial_ms = 1
      ∧ ∃ d : ℚ,
          (handle_tko 0 sampleState ⟨.mc_res_connect_error⟩ false).1.probe_timer
              = some d
            ∧ 1050 ≤ d ∧ d ≤ 1500 :=
  ⟨le_refl 0, by norm_num, rfl, rfl, rfl, rfl, by decide, rfl,
   first_probe_delay_initial_bounds 0 sampleState ⟨.mc_res_connect_error⟩
     (le_refl 0) (by norm_num) rfl rfl rfl rfl (by decide) rfl⟩

/-- Within one probing episode with `probe_delay_max_ms = 10`, iterating
the delay update from 1 stabilises at 10 from the 7th call on. -/
lemma probeDelayStep_iterate_stable (k : Nat) (hk : 6 ≤ k) :
    (probeDelayStep 10)^[k] 1 = 10 := by
  induction k, hk using Nat.le_induction with
  | base => decide
  | succ n hn ih =>
      rw [Function.iterate_succ_apply', ih]
      decide

/-- C3: with `probe_delay_initial_ms = 1` and `probe_delay_max_ms = 10`,
each call to `schedule_next_probe` arms a timer with the current
pre-jitter delay times a jitter factor in `[1.05, 1.50]` and advances the
pre-jitter delay by `probeDelayStep` (truncated ×1.5, sub-2 values lifted
to 2, clamped at the maximum); iterating that update from 1 yields exactly
the delay sequence `1, 2, 3, 4, 6, 9, 10, 10` and stays at `10` from the
7th call on. -/
theorem probe_backoff_sequence (r : ℚ) (s : PDState) (k : Nat)
    (hr0 : 0 ≤ r) (hr1 : r ≤ 1) (hmax : s.probe_delay_max_ms = 10)
    (hk : 6 ≤ k) :
    (schedule_next_probe r s).probe_timer
        = some ((s.probe_delay_next_ms : ℚ) * 1000
                  * (1 + (r * kProbeJitterDelta + kProbeJitterMin)))
      ∧ (schedule_next_probe r s).probe_delay_next_ms
          = probeDelayStep 10 s.probe_delay_next_ms
      ∧ (105 / 100 : ℚ) ≤ 1 + (r * kProbeJitterDelta + kProbeJitterMin)
      ∧ 1 + (r * kProbeJitterDelta + kProbeJitterMin) ≤ 150 / 100
      ∧ (List.range 8).map (fun i => (probeDelayStep 10)^[i] 1)
          = [1, 2, 3, 4, 6, 9, 10, 10]
      ∧ (probeDelayStep 10)^[k] 1 = 10 := by
  refine ⟨rfl, by rw [← hmax]; rfl, ?_, ?_, by decide,
          probeDelayStep_iterate_stable k hk⟩
  · unfold kProbeJitterDelta kProbeJitterMax kProbeJitterMin
    nlinarith
  · unfold kProbeJitterDelta kProbeJitterMax kProbeJitterMin
    nlinarith

/-- Witness for C3 at `r = 0`, a concrete state with maximum 10, and
`k = 6`. -/
theorem probe_backoff_sequence_witness :
    (0 : ℚ) ≤ 0 ∧ (0 : ℚ) ≤ 1
      ∧ ({ sampleState with probe_delay_max_ms := 10 } : PDState).probe_delay_max_ms = 10
      ∧ 6 ≤ 6
      ∧ ((schedule_next_probe 0 { sampleState with probe_delay_max_ms := 10 }).probe_timer
          = some ((({ sampleState with probe_delay_max_ms := 10 } : PDState).probe_delay_next_ms : ℚ)
                    * 1000 * (1 + (0 * kProbeJitterDelta + kProbeJitterMin)))
        ∧ (schedule_next_probe 0 { sampleState with probe_delay_max_ms := 10 }).probe_delay_next_ms
            = probeDelayStep 10
                ({ sampleState with probe_delay_max_ms := 10 } : PDState).probe_delay_next_ms
        ∧ (105 / 100 : ℚ) ≤ 1 + (0 * kProbeJitterDelta + kProbeJitterMin)
        ∧ 1 + ((0 : ℚ) * kProbeJitterDelta + kProbeJitterMin) ≤ 150 / 100
        ∧ (List.range 8).map (fun i => (probeDelayStep 10)^[i] 1)
            = [1, 2, 3, 4, 6, 9, 10, 10]
        ∧ (probeDelayStep 10)^[6] 1 = 10) :=
  ⟨le_refl 0, by norm_num, rfl, le_refl 6,
   probe_backoff_sequence 0 { sampleState with probe_delay_max_ms := 10 } 6
     (le_refl 0) (by norm_num) rfl (le_refl 6)⟩

/-- `handle_tko` never touches the latency average, the window size or the
per-result counters, and every event it emits logs the latency average as
it was on entry. -/
lemma handle_tko_stats_untouched (r : ℚ) (s : PDState) (reply : McReply)
    (b : Bool) :
    (handle_tko r s reply b).1.avgLatency = s.avgLatency
      ∧ (handle_tko r s reply b).1.latency_window_size = s.latency_window_size
      ∧ (handle_tko r s reply b).1.results = s.results
      ∧ ∀ ev ∈ (handle_tko r s reply b).2, ev.avgLatency = s.avgLatency := by
  dsimp only [handle_tko, unmark_tko, stop_sending_probes, start_sending_probes,
    schedule_next_probe, onTkoEvent]
  split
  · simp
  · split
    · split
      · split <;> simp
      · split
        · split <;> simp
        · simp
    · split
      · split <;> simp
      · simp

/-- C4 counterexample: at `sampleState` (latency window 2, average 0), a
`connect_error` reply with sample latency `100` makes `onReply` emit a
`MarkHardTko` event that logs average latency `0` — the average *before*
the current sample — while the state after `onReply` holds `50`.  The
claimed order (stats first, then `handle_tko`, so the event sees the
average including the sample) is false: the source calls `handle_tko`
before updating the stats. -/
theorem onReply_event_sees_stale_latency :
    ((onReply 0 100 0 sampleState ⟨.mc_res_connect_error⟩).2.map TkoLog.avgLatency
        = [0])
      ∧ (onReply 0 100 0 sampleState ⟨.mc_res_connect_error⟩).1.avgLatency = 50
      ∧ (0 : ℚ) ≠ 50 := by
  refine ⟨?_, ?_, by norm_num⟩
  · norm_num [onReply, handle_tko, sampleState, TkoCounter.recordHardFailure,
      start_sending_probes, schedule_next_probe, onTkoEvent,
      McReply.isError, McReply.isHardTkoError]
  · norm_num [onReply, handle_tko, sampleState, TkoCounter.recordHardFailure,
      start_sending_probes, schedule_next_probe, onTkoEvent, insertSample,
      McReply.isError, McReply.isHardTkoError]

/-- C4 amended: `onReply` first calls `handle_tko` with
`is_probe_req = false` and only then updates the per-result counters and
the exponential-moving-average latency with smoothing factor
`1 / latency_window_size`; consequently any TKO event emitted during that
call observes the latency average *excluding* the current sample, while
the state after `onReply` holds the average including it. -/
theorem onReply_handle_tko_before_stats (r now startTime : ℚ) (s : PDState)
    (reply : McReply) (ev : TkoLog)
    (hev : ev ∈ (onReply r now startTime s reply).2) :
    (onReply r now startTime s reply).2 = (handle_tko r s reply false).2
      ∧ (onReply r now startTime s reply).1.tko = (handle_tko r s reply false).1.tko
      ∧ ev.avgLatency = s.avgLatency
      ∧ (onReply r now startTime s reply).1.avgLatency
          = insertSample (1 / s.latency_window_size) s.avgLatency (now - startTime)
      ∧ (onReply r now startTime s reply).1.results reply.result
          = s.results reply.result + 1 := by
  obtain ⟨havg, hwin, hres, hevs⟩ := handle_tko_stats_untouched r s reply false
  refine ⟨rfl, rfl, ?_, ?_, ?_⟩
  · exact hevs ev hev
  · show insertSample _ _ _ = _
    rw [havg, hwin]
  · show (if reply.result = reply.result then _ else _) = _
    rw [if_pos rfl, hres]

/-- Witness for the amended C4: the `MarkHardTko` event emitted at
`sampleState` on a `connect_error` reply. -/
theorem onReply_handle_tko_before_stats_witness :
    (⟨.MarkHardTko, .mc_res_connect_error, 0, 0⟩ : TkoLog)
        ∈ (onReply 0 100 0 sampleState ⟨.mc_res_connect_error⟩).2
      ∧ ((onReply 0 100 0 sampleState ⟨.mc_res_connect_error⟩).2
            = (handle_tko 0 sampleState ⟨.mc_res_connect_error⟩ false).2
        ∧ (onReply 0 100 0 sampleState ⟨.mc_res_connect_error⟩).1.tko
            = (handle_tko 0 sampleState ⟨.mc_res_connect_error⟩ false).1.tko
        ∧ (⟨.MarkHardTko, .mc_res_connect_error, 0, 0⟩ : TkoLog).avgLatency
            = sampleState.avgLatency
        ∧ (onReply 0 100 0 sampleState ⟨.mc_res_connect_error⟩).1.avgLatency
            = insertSample (1 / sampleState.latency_window_size)
                sampleState.avgLatency (100 - 0)
        ∧ (onReply 0 100 0 sampleState ⟨.mc_res_connect_error⟩).1.results
              (McReply.mk .mc_res_connect_error).result
            = sampleState.results (McReply.mk .mc_res_connect_error).result + 1) :=
  ⟨by norm_num [onReply, handle_tko, sampleState, TkoCounter.recordHardFailure,
      start_sending_probes, schedule_next_probe, onTkoEvent,
      McReply.isError, McReply.isHardTkoError],
   onReply_handle_tko_before_stats 0 100 0 sampleState ⟨.mc_res_connect_error⟩
     ⟨.MarkHardTko, .mc_res_connect_error, 0, 0⟩
     (by norm_num [onReply, handle_tko, sampleState, TkoCounter.recordHardFailure,
        start_sending_probes, schedule_next_probe, onTkoEvent,
        McReply.isError, McReply.isHardTkoError])⟩

/-- C5: when `on_down` runs with the `resetting` flag set, the local state
becomes `kClosed` (not `kDown`), no event is emitted, and the shared
failure counter is untouched — no synthetic `connect_error` reaches
`handle_tko`. -/
theorem on_down_resetting_closes (r : ℚ) (s : PDState)
    (h : s.resetting = true) :
    (on_down r s).1.localState = ProxyDestinationState.kClosed
      ∧ (on_down r s).1.tko = s.tko
      ∧ (on_down r s).2 = [] := by
  unfold on_down setState
  rw [h]
  split
  · split <;> simp_all
  · simp_all

/-- Witness for C5 at a concrete resetting state. -/
theorem on_down_resetting_closes_witness :
    ({ sampleState with resetting := true } : PDState).resetting = true
      ∧ ((on_down 0 { sampleState with resetting := true }).1.localState
            = ProxyDestinationState.kClosed
        ∧ (on_down 0 { sampleState with resetting := true }).1.tko
            = ({ sampleState with resetting := true } : PDState).tko
        ∧ (on_down 0 { sampleState with resetting := true }).2 = []) :=
  ⟨rfl, on_down_resetting_closes 0 { sampleState with resetting := true } rfl⟩

/-- C6: from a scheduler state that is not probing (flag clear, no armed
timer — the `FBI_ASSERT` preconditions of `start_sending_probes` and
`schedule_next_probe`), running `start_sending_probes` then
`stop_sending_probes` restores the initial scheduler state: flag clear,
no timer armed, `probesSent = 0`. -/
theorem start_stop_restores_initial (r : ℚ) (s : PDState)
    (hflag : s.sending_probes = false) (htimer : s.probe_timer = none) :
    (stop_sending_probes (start_sending_probes r s)).sending_probes = false
      ∧ (stop_sending_probes (start_sending_probes r s)).probe_timer = none
      ∧ (stop_sending_probes (start_sending_probes r s)).probesSent = 0 :=
  ⟨rfl, rfl, rfl⟩

/-- Witness for C6 at `sampleState`. -/
theorem start_stop_restores_initial_witness :
    sampleState.sending_probes = false
      ∧ sampleState.probe_timer = none
      ∧ ((stop_sending_probes (start_sending_probes 0 sampleState)).sending_probes = false
        ∧ (stop_sending_probes (start_sending_probes 0 sampleState)).probe_timer = none
        ∧ (stop_sending_probes (start_sending_probes 0 sampleState)).probesSent = 0) :=
  ⟨rfl, rfl, start_stop_restores_initial 0 sampleState rfl rfl⟩

/-- C7: `updateShortestTimeout` with `t = 0` is a no-op; with `t ≠ 0` the
stored value becomes `min(current, t)` (a current value of 0 meaning
"unset", so it is simply replaced), the effective timeout never increases
(a set value never becomes unset nor larger), and whenever a client exists
and the stored value changes, the new value is pushed to the client's
write timeout. -/
theorem updateShortestTimeout_monotone (t : Nat) (s : PDState) :
    updateShortestTimeout 0 s = s
      ∧ (t ≠ 0 → (updateShortestTimeout t s).shortestTimeout
          = if s.shortestTimeout = 0 then t else min s.shortestTimeout t)
      ∧ (t ≠ 0 → s.shortestTimeout ≠ 0 →
          (updateShortestTimeout t s).shortestTimeout ≤ s.shortestTimeout
            ∧ (updateShortestTimeout t s).shortestTimeout ≠ 0)
      ∧ (s.client_ = true →
          (updateShortestTimeout t s).shortestTimeout ≠ s.shortestTimeout →
          (updateShortestTimeout t s).clientWriteTimeout
            = some (updateShortestTimeout t s).shortestTimeout) := by
  by_cases h0 : t = 0
  · refine ⟨by simp [updateShortestTimeout], fun ht => absurd h0 ht,
      fun ht _ => absurd h0 ht, fun hcl hne => ?_⟩
    rw [h0] at hne
    simp [updateShortestTimeout] at hne
  · by_cases hz : s.shortestTimeout = 0
    · refine ⟨by simp [updateShortestTimeout], fun _ => ?_,
        fun _ hs => absurd hz hs, fun hcl hne => ?_⟩
      · by_cases hcl : s.client_ = true <;>
          simp [updateShortestTimeout, h0, hz, hcl]
      · simp [updateShortestTimeout, h0, hz, hcl]
    · by_cases hlt : t < s.shortestTimeout
      · refine ⟨by simp [updateShortestTimeout], fun _ => ?_, fun _ hs => ?_,
          fun hcl hne => ?_⟩
        · by_cases hcl : s.client_ = true <;>
            simp [updateShortestTimeout, h0, hz, hlt, hcl] <;> omega
        · by_cases hcl : s.client_ = true <;>
            simp [updateShortestTimeout, h0, hz, hlt, hcl] <;> omega
        · simp [updateShortestTimeout, h0, hz, hlt, hcl]
      · have hupd : updateShortestTimeout t s = s := by
          simp [updateShortestTimeout, h0, hz, hlt]
        refine ⟨by simp [updateShortestTimeout], fun _ => ?_, fun _ hs => ?_,
          fun hcl hne => ?_⟩
        · rw [hupd, if_neg hz]
          omega
        · rw [hupd]
          exact ⟨le_refl _, hz⟩
        · rw [hupd] at hne
          exact absurd rfl hne

/-- Witness for C7 at `t = 7` and `sampleState` (stored timeout 100,
client present): the stored value drops to 7 and is pushed. -/
theorem updateShortestTimeout_monotone_witness :
    updateShortestTimeout 0 sampleState = sampleState
      ∧ ((7 : Nat) ≠ 0 → (updateShortestTimeout 7 sampleState).shortestTimeout
          = if sampleState.shortestTimeout = 0 then 7
            else min sampleState.shortestTimeout 7)
      ∧ ((7 : Nat) ≠ 0 → sampleState.shortestTimeout ≠ 0 →
          (updateShortestTimeout 7 sampleState).shortestTimeout
              ≤ sampleState.shortestTimeout
            ∧ (updateShortestTimeout 7 sampleState).shortestTimeout ≠ 0)
      ∧ (sampleState.client_ = true →
          (updateShortestTimeout 7 sampleState).shortestTimeout
              ≠ sampleState.shortestTimeout →
          (updateShortestTimeout 7 sampleState).clientWriteTimeout
            = some (updateShortestTimeout 7 sampleState).shortestTimeout) :=
  updateShortestTimeout_monotone 7 sampleState

/-- The gauge selected by `getStatName` after `stat_incr`. -/
lemma gaugeGet_statIncr (g : GaugeVec) (st st' : ProxyDestinationState) :
    gaugeGet (statIncr g st') st
      = gaugeGet g st + if st = st' then 1 else 0 := by
  cases st <;> cases st' <;> simp [statIncr, gaugeGet]

/-- The gauge selected by `getStatName` after `stat_decr`. -/
lemma gaugeGet_statDecr (g : GaugeVec) (st st' : ProxyDestinationState) :
    gaugeGet (statDecr g st') st
      = gaugeGet g st - if st = st' then 1 else 0 := by
  cases st <;> cases st' <;> simp [statDecr, gaugeGet]

/-- The gauge/live-destination correspondence: each gauge equals the number
of live destinations currently in that local state. -/
def gaugeInv (s : GaugeSys) : Prop :=
  ∀ st, gaugeGet s.gauges st = (s.dests.count st : Int)

/-- Every lifecycle event preserves the gauge/live-destination
correspondence. -/
lemma gaugeInv_apply (s : GaugeSys) (op : GaugeOp) (h : gaugeInv s) :
    gaugeInv (applyGaugeOp s op) := by
  cases op with
  | create =>
      intro st
      have hs := h st
      simp only [applyGaugeOp, gaugeGet_statIncr, Multiset.count_cons]
      split <;> simp_all <;> omega
  | setSt old new =>
      by_cases hmem : old ∈ s.dests
      · by_cases he : old = new
        · simpa [applyGaugeOp, hmem, he] using h
        · intro st
          have hs := h st
          have hold := h old
          have hpos : 0 < s.dests.count old := Multiset.count_pos.mpr hmem
          simp only [applyGaugeOp, if_pos hmem, if_neg he, gaugeGet_statIncr,
            gaugeGet_statDecr, Multiset.count_cons]
          by_cases h1 : st = old
          · subst h1
            rw [Multiset.count_erase_self]
            split <;> simp_all <;> omega
          · rw [Multiset.count_erase_of_ne h1]
            split <;> split <;> simp_all <;> omega
      · simpa [applyGaugeOp, hmem] using h
  | destroy st' =>
      by_cases hmem : st' ∈ s.dests
      · intro st
        have hs := h st
        have hst' := h st'
        have hpos : 0 < s.dests.count st' := Multiset.count_pos.mpr hmem
        simp only [applyGaugeOp, if_pos hmem, gaugeGet_statDecr]
        by_cases h1 : st = st'
        · subst h1
          rw [Multiset.count_erase_self]
          simp_all <;> omega
        · rw [Multiset.count_erase_of_ne h1]
          simp_all
      · simpa [applyGaugeOp, hmem] using h

/-- Folding lifecycle events preserves the correspondence. -/
lemma gaugeInv_foldl (ops : List GaugeOp) (s : GaugeSys) (h : gaugeInv s) :
    gaugeInv (ops.foldl applyGaugeOp s) := by
  induction ops generalizing s with
  | nil => exact h
  | cons op rest ih => exact ih _ (gaugeInv_apply s op h)

/-- Every live destination is in one of the four local states, so the
per-state counts sum to the number of live destinations. -/
lemma count_four_states_eq_card (m : Multiset ProxyDestinationState) :
    m.count .kNew + m.count .kUp + m.count .kClosed + m.count .kDown
      = Multiset.card m := by
  induction m using Multiset.induction_on with
  | empty => simp
  | cons a s ih => cases a <;> simp [Multiset.count_cons, ← ih] <;> omega

/-- C8: after any sequence of lifecycle events (construction incrementing
`num_servers_new`, `setState` transitions moving exactly one unit from the
old state's gauge to the new one, destruction decrementing the final local
state's gauge), each gauge equals the number of live destinations in that
local state, and the four gauges sum to the number of live destinations. -/
theorem gauges_partition_live_destinations (ops : List GaugeOp) :
    (∀ st, gaugeGet (runGaugeOps ops).gauges st
        = ((runGaugeOps ops).dests.count st : Int))
      ∧ (runGaugeOps ops).gauges.num_servers_new
          + (runGaugeOps ops).gauges.num_servers_up
          + (runGaugeOps ops).gauges.num_servers_closed
          + (runGaugeOps ops).gauges.num_servers_down
        = (Multiset.card (runGaugeOps ops).dests : Int) := by
  have hinv : gaugeInv (runGaugeOps ops) := by
    apply gaugeInv_foldl
    intro st
    cases st <;> simp [gaugeSysInit, gaugeGet]
  refine ⟨hinv, ?_⟩
  have h1 := hinv .kNew
  have h2 := hinv .kUp
  have h3 := hinv .kClosed
  have h4 := hinv .kDown
  have hsum := count_four_states_eq_card (runGaugeOps ops).dests
  simp only [gaugeGet] at h1 h2 h3 h4
  rw [h1, h2, h3, h4]
  push_cast [← hsum]
  ring

/-- `resetInactive` with no client in place is a no-op that emits
nothing. -/
lemma resetInactive_no_client (r : ℚ) (s : PDState) (h : s.client_ = false) :
    resetInactive r s = (s, []) := by
  unfold resetInactive
  rw [h]
  simp

/-- C9: `resetInactive` is idempotent: the first call leaves no client
behind, and a second call on the result changes nothing and emits
nothing (in particular the `resetting` flag is never set by it). -/
theorem resetInactive_idempotent (r : ℚ) (s : PDState) :
    (resetInactive r s).1.client_ = false
      ∧ resetInactive r (resetInactive r s).1 = ((resetInactive r s).1, []) := by
  have hcl : (resetInactive r s).1.client_ = false := by
    unfold resetInactive
    split
    · rfl
    · rename_i hc
      simp only [Bool.not_eq_true] at hc
      exact hc
  exact ⟨hcl, resetInactive_no_client r _ hcl⟩

/-- C10: the destructor of a destination that is still sending probes
emits exactly one `RemoveFromConfig` TKO event with result `mc_res_ok`
and then stops probing (flag cleared, timer cancelled, `probesSent`
reset to 0); when it is not sending probes, no TKO event is emitted. -/
theorem destructor_probe_shutdown (s : PDState) :
    (s.sending_probes = true →
        (destructorRun s).2
            = [{ event := .RemoveFromConfig, result := .mc_res_ok,
                 avgLatency := s.avgLatency, probesSent := s.probesSent }]
          ∧ (destructorRun s).1.sending_probes = false
          ∧ (destructorRun s).1.probe_timer = none
          ∧ (destructorRun s).1.probesSent = 0)
      ∧ (s.sending_probes = false → (destructorRun s).2 = []) := by
  constructor
  · intro h
    unfold destructorRun onTkoEvent
    rw [h]
    simp [stop_sending_probes]
  · intro h
    unfold destructorRun
    rw [h]
    simp

/-- Witness for C10: the probing case at `sampleProbing` and the
non-probing case at `sampleState`. -/
theorem destructor_probe_shutdown_witness :
    sampleProbing.sending_probes = true
      ∧ sampleState.sending_probes = false
      ∧ ((destructorRun sampleProbing).2
            = [{ event := .RemoveFromConfig, result := .mc_res_ok,
                 avgLatency := sampleProbing.avgLatency,
                 probesSent := sampleProbing.probesSent }]
          ∧ (destructorRun sampleProbing).1.sending_probes = false
          ∧ (destructorRun sampleProbing).1.probe_timer = none
          ∧ (destructorRun sampleProbing).1.probesSent = 0)
      ∧ (destructorRun sampleState).2 = [] :=
  ⟨rfl, rfl, (destructor_probe_shutdown sampleProbing).1 rfl,
   (destructor_probe_shutdown sampleState).2 rfl⟩

end Mcrouter
